import Mathlib

/-!
Verification of the MediaWiki `PagesTable` adapter
(`mindsdb/integrations/handlers/mediawiki_handler/mediawiki_tables.py`).

The adapter is shallowly embedded: the transport (the `wikipedia` client
obtained from `self.handler.connect()`) is an oracle parameter, and every
call the adapter makes to it is recorded in an explicit trace, so that
properties of the form "no network call is made before the error" are
statements about that trace.
-/

namespace MediaWiki

/-- A Python value as it appears in parsed SQL conditions and in page
attributes: strings, integers, or lists of strings (the `categories`
attribute). -/
inductive Value where
  | str (s : String)
  | int (n : Int)
  | strList (l : List String)
  deriving DecidableEq, Repr

/-- Python `f"...{v}..."` formatting of a value, as used by
`f'intitle:{title}'` and `f'pageid:{page_id}'` in `get_pages`. -/
def Value.fmt : Value → String
  | .str s => s
  | .int n => toString n
  | .strList l => "[" ++ String.intercalate ", " (l.map (fun s => "'" ++ s ++ "'")) ++ "]"

/-- A parsed WHERE condition, as handed to `validate_where_conditions`:
`condition[0]` is the operator, `condition[1]` the column name,
`condition[2]` the value. -/
structure Condition where
  op : String
  column : String
  value : Value
  deriving DecidableEq, Repr

/-- A fetched page object, modelled by its attribute map.

Modelled from the spec: the page objects come from the external `wikipedia`
library (not part of this repository slice); per the spec, an attribute
"that the remote object lacks" makes the access fail with the `KeyError`
that `convert_page_to_dict` catches, and is skipped (logged, not fatal).
We therefore model a page as a partial map from attribute name to value;
`none` means the attribute is lacking and its access raises `KeyError`. -/
structure Page where
  attrs : String → Option Value

/-- A row dictionary: insertion-ordered association list, as built by
`result[attribute] = getattr(page, attribute)`. -/
abbrev RowDict : Type := List (String × Value)

/-- The payload of the single `edit` call built by `insert` (the dict
literal passed to `self.handler.call_application_api`); `headers` is the
argument of `json.dumps`, a list of single-entry dicts. -/
structure EditPayload where
  title : Value
  text : Value
  summary : Value
  headers : List (List (String × String))
  deriving DecidableEq, Repr

/-- One call made by the adapter to the external transport / handler. -/
inductive ApiCall where
  | connect
  | search (term : String) (results : Nat)
  | page (title : String) (autoSuggest : Bool)
  | random (pages : Nat)
  | edit (action : String) (payload : EditPayload)
  deriving DecidableEq, Repr

/-- The transport object returned by `self.handler.connect()`, as an
oracle: what `search`, `random` and `page` would return. -/
structure Transport where
  searchResults : String → Nat → List String
  randomResults : Nat → List String
  pageOf : String → Page

/-- `PagesTable.get_columns`. -/
def get_columns : List String :=
  ["pageid", "title", "original_title", "content", "summary", "url", "categories"]

/-- The loop of `PagesTable.validate_where_conditions`, with the `title`
and `page_id` accumulators explicit.  Each supported equality condition
overwrites the accumulator; a non-equality operator on `title`/`pageid`,
or any other column, raises `ValueError` (modelled as `Except.error` with
the message text of the source). -/
def validateLoop : Option Value → Option Value → List Condition →
    Except String (Option Value × Option Value)
  | title, page_id, [] => Except.ok (title, page_id)
  | title, page_id, condition :: rest =>
    if condition.column = "title" then
      if condition.op ≠ "=" then
        Except.error ("Unsupported operator '" ++ condition.op ++ "' for column '"
          ++ condition.column ++ "' in WHERE clause.")
      else
        validateLoop (some condition.value) page_id rest
    else if condition.column = "pageid" then
      if condition.op ≠ "=" then
        Except.error ("Unsupported operator '" ++ condition.op ++ "' for column '"
          ++ condition.column ++ "' in WHERE clause.")
      else
        validateLoop title (some condition.value) rest
    else
      Except.error ("Unsupported column '" ++ condition.column ++ "' in WHERE clause.")

/-- `PagesTable.validate_where_conditions`: starts from
`title, page_id = None, None` and folds the conditions. -/
def validate_where_conditions (conditions : List Condition) :
    Except String (Option Value × Option Value) :=
  validateLoop none none conditions

/-- The loop of `PagesTable.convert_page_to_dict`: for each attribute of
`get_columns`, `result[attribute] = getattr(page, attribute)`, skipping
the attribute when the access raises `KeyError`. -/
def convertLoop (page : Page) : List String → RowDict → RowDict
  | [], result => result
  | a :: rest, result =>
    match page.attrs a with
    | some v => convertLoop page rest (result ++ [(a, v)])
    | none => convertLoop page rest result

/-- `PagesTable.convert_page_to_dict`. -/
def convert_page_to_dict (page : Page) : RowDict :=
  convertLoop page get_columns []

/-- `PagesTable.get_pages`: builds `query_parts` from the optional title
and page id, joins them with `' | '`, connects, and either searches (when
the search query is non-empty) or falls back to `random`; each returned
result is resolved with `page(result, auto_suggest=False)` and converted.
Returns the produced rows together with the trace of transport calls.
The default of `limit` is 20, as in the source. -/
def get_pages (t : Transport) (title : Option Value) (page_id : Option Value)
    (limit : Nat := 20) : List RowDict × List ApiCall :=
  let query_parts : List String :=
    (match title with
     | some v => ["intitle:" ++ v.fmt]
     | none => []) ++
    (match page_id with
     | some v => ["pageid:" ++ v.fmt]
     | none => [])
  let search_query := String.intercalate " | " query_parts
  if search_query ≠ "" then
    let results := t.searchResults search_query limit
    (results.map (fun r => convert_page_to_dict (t.pageOf r)),
     [ApiCall.connect, ApiCall.search search_query limit]
       ++ results.map (fun r => ApiCall.page r false))
  else
    let results := t.randomResults limit
    (results.map (fun r => convert_page_to_dict (t.pageOf r)),
     [ApiCall.connect, ApiCall.random limit]
       ++ results.map (fun r => ApiCall.page r false))

/-- `PagesTable.select`, after the external `SELECTQueryParser` has
produced the WHERE conditions and the result limit: validates the
conditions (raising `ValueError` locally on failure, before any transport
call) and otherwise fetches the pages.  The second component is the trace
of transport calls actually made. -/
def select (t : Transport) (where_conditions : List Condition) (result_limit : Nat) :
    Except String (List RowDict) × List ApiCall :=
  match validate_where_conditions where_conditions with
  | Except.error e => (Except.error e, [])
  | Except.ok (title, page_id) =>
    let res := get_pages t title page_id result_limit
    (Except.ok res.1, res.2)

/-- A parsed INSERT row: the mapping from column name to value produced
by the external `INSERTQueryParser`. -/
abbrev Row : Type := List (String × Value)

/-- Python dict lookup `row[k]`: raises `KeyError` when the key is
absent. -/
def dictGet (row : Row) (k : String) : Except String Value :=
  match row.lookup k with
  | some v => Except.ok v
  | none => Except.error ("KeyError: '" ++ k ++ "'")

/-- The two fixed request headers of `insert`, the argument of
`json.dumps`. -/
def fixedHeaders : List (List (String × String)) :=
  [[("Accept", "application/json")],
   [("Content-Type", "application/x-www-form-urlencoded")]]

/-- `PagesTable.insert`, after the external `INSERTQueryParser` has
produced `values_to_insert`: when at least one row was parsed, the payload
dict is built from the FIRST row (looking up `title`, then `content`, then
`summary`, each able to raise `KeyError`) and exactly one `edit` call is
issued; remaining rows are ignored.  The second component is the trace of
handler calls made. -/
def insert (values_to_insert : List Row) : Except String Unit × List ApiCall :=
  match values_to_insert with
  | [] => (Except.ok (), [])
  | row :: _ =>
    match dictGet row "title" with
    | Except.error e => (Except.error e, [])
    | Except.ok titleVal =>
      match dictGet row "content" with
      | Except.error e => (Except.error e, [])
      | Except.ok textVal =>
        match dictGet row "summary" with
        | Except.error e => (Except.error e, [])
        | Except.ok summaryVal =>
          (Except.ok (),
           [ApiCall.edit "edit"
             { title := titleVal, text := textVal, summary := summaryVal,
               headers := fixedHeaders }])

/-- The search terms occurring in a trace of transport calls. -/
def searchTermsOf (trace : List ApiCall) : List String :=
  trace.filterMap (fun c =>
    match c with
    | ApiCall.search s _ => some s
    | _ => none)

/-- A condition that `validate_where_conditions` rejects: any column other
than `title`/`pageid`, or a non-equality operator on those. -/
def badCondition (c : Condition) : Prop :=
  (c.column ≠ "title" ∧ c.column ≠ "pageid") ∨
  ((c.column = "title" ∨ c.column = "pageid") ∧ c.op ≠ "=")

instance : DecidablePred badCondition := fun _ => by
  unfold badCondition; infer_instance

/-- The `ValueError` message the source raises for a rejected
condition. -/
def errMsgFor (c : Condition) : String :=
  if c.column = "title" ∨ c.column = "pageid" then
    "Unsupported operator '" ++ c.op ++ "' for column '" ++ c.column ++ "' in WHERE clause."
  else
    "Unsupported column '" ++ c.column ++ "' in WHERE clause."

/-- The value of the last equality condition on `col`, in list order
(`None` when there is none): the overwriting semantics of the
validation loop. -/
def lastValue (col : String) (conditions : List Condition) : Option Value :=
  conditions.foldl (fun acc c => if c.column = col then some c.value else acc) none

/-- A concrete transport used to instantiate universally quantified
theorems at explicit inputs. -/
def T0 : Transport where
  searchResults := fun _ _ => ["r1"]
  randomResults := fun n => List.replicate n "rnd"
  pageOf := fun s => ⟨fun a => if a = "title" then some (.str s) else some (.int 0)⟩

/-- A concrete page lacking exactly the `categories` attribute. -/
def P0 : Page :=
  ⟨fun a => if a = "categories" then none
            else if a = "title" then some (.str "T")
            else some (.int 7)⟩

/- ### Helper lemmas -/

theorem str_ne_empty_of_length_pos (s : String) (h : 0 < s.length) : s ≠ "" := by
  intro hc
  rw [hc] at h
  exact absurd h (by decide)

theorem intitle_append_length_pos (x : String) : 0 < ("intitle:" ++ x).length := by
  rw [String.length_append]
  have h8 : ("intitle:" : String).length = 8 := rfl
  omega

theorem intitle_ne_empty (x : String) : "intitle:" ++ x ≠ "" :=
  str_ne_empty_of_length_pos _ (intitle_append_length_pos x)

theorem convertLoop_eq (page : Page) (l : List String) (acc : RowDict) :
    convertLoop page l acc =
      acc ++ l.filterMap (fun a => (page.attrs a).map (fun v => (a, v))) := by
  induction l generalizing acc with
  | nil => simp [convertLoop]
  | cons a rest ih =>
    simp only [convertLoop, List.filterMap_cons]
    cases h : page.attrs a with
    | none => simp [h, ih]
    | some v => simp [h, ih]

theorem convert_page_to_dict_eq (page : Page) :
    convert_page_to_dict page =
      get_columns.filterMap (fun a => (page.attrs a).map (fun v => (a, v))) := by
  rw [convert_page_to_dict, convertLoop_eq]
  simp

theorem intercalate_singleton (s a : String) : String.intercalate s [a] = a := rfl

theorem intercalate_pair (s a b : String) : String.intercalate s [a, b] = a ++ s ++ b := rfl

theorem validateLoop_bad (conds : List Condition) (t p : Option Value)
    (h : ∃ c ∈ conds, badCondition c) :
    ∃ c ∈ conds, badCondition c ∧ validateLoop t p conds = Except.error (errMsgFor c) := by
  induction conds generalizing t p with
  | nil => simp at h
  | cons c rest ih =>
    by_cases hc : badCondition c
    · refine ⟨c, List.mem_cons_self _ _, hc, ?_⟩
      rcases hc with ⟨h1, h2⟩ | ⟨h1, h2⟩
      · simp [validateLoop, errMsgFor, h1, h2]
      · rcases h1 with h1 | h1
        · simp [validateLoop, errMsgFor, h1, h2]
        · simp [validateLoop, errMsgFor, h1, h2]
    · have hrest : ∃ d ∈ rest, badCondition d := by
        rcases h with ⟨d, hd, hbd⟩
        rcases List.mem_cons.mp hd with rfl | hd'
        · exact absurd hbd hc
        · exact ⟨d, hd', hbd⟩
      have hcol : c.column = "title" ∨ c.column = "pageid" := by
        by_contra hn
        push_neg at hn
        exact hc (Or.inl hn)
      have hop : c.op = "=" := by
        by_contra hn
        exact hc (Or.inr ⟨hcol, hn⟩)
      rcases hcol with h1 | h1
      · rcases ih (some c.value) p hrest with ⟨d, hd, hbd, heq⟩
        refine ⟨d, List.mem_cons_of_mem _ hd, hbd, ?_⟩
        simpa [validateLoop, h1, hop] using heq
      · rcases ih t (some c.value) hrest with ⟨d, hd, hbd, heq⟩
        refine ⟨d, List.mem_cons_of_mem _ hd, hbd, ?_⟩
        simpa [validateLoop, h1, hop] using heq

theorem validateLoop_ok (conds : List Condition) (t p : Option Value)
    (h : ∀ c ∈ conds, c.op = "=" ∧ (c.column = "title" ∨ c.column = "pageid")) :
    validateLoop t p conds =
      Except.ok
        (conds.foldl (fun acc c => if c.column = "title" then some c.value else acc) t,
         conds.foldl (fun acc c => if c.column = "pageid" then some c.value else acc) p) := by
  induction conds generalizing t p with
  | nil => simp [validateLoop]
  | cons c rest ih =>
    obtain ⟨hop, hcol⟩ := h c (List.mem_cons_self _ _)
    have hrest := fun d hd => h d (List.mem_cons_of_mem c hd)
    rcases hcol with h1 | h1
    · simp [validateLoop, h1, hop, ih _ _ hrest]
    · simp [validateLoop, h1, hop, ih _ _ hrest]

theorem get_pages_title_only (t : Transport) (v : Value) (limit : Nat) :
    get_pages t (some v) none limit =
      ((t.searchResults ("intitle:" ++ v.fmt) limit).map
          (fun r => convert_page_to_dict (t.pageOf r)),
       [ApiCall.connect, ApiCall.search ("intitle:" ++ v.fmt) limit]
         ++ (t.searchResults ("intitle:" ++ v.fmt) limit).map
              (fun r => ApiCall.page r false)) := by
  have hne : "intitle:" ++ v.fmt ≠ "" := intitle_ne_empty v.fmt
  simp [get_pages, intercalate_singleton, hne]

theorem get_pages_no_filters (t : Transport) (limit : Nat) :
    get_pages t none none limit =
      ((t.randomResults limit).map (fun r => convert_page_to_dict (t.pageOf r)),
       [ApiCall.connect, ApiCall.random limit]
         ++ (t.randomResults limit).map (fun r => ApiCall.page r false)) := rfl

theorem get_pages_title_pageid (t : Transport) (v w : Value) (limit : Nat) :
    get_pages t (some v) (some w) limit =
      ((t.searchResults ("intitle:" ++ v.fmt ++ " | " ++ ("pageid:" ++ w.fmt)) limit).map
          (fun r => convert_page_to_dict (t.pageOf r)),
       [ApiCall.connect,
        ApiCall.search ("intitle:" ++ v.fmt ++ " | " ++ ("pageid:" ++ w.fmt)) limit]
         ++ (t.searchResults ("intitle:" ++ v.fmt ++ " | " ++ ("pageid:" ++ w.fmt)) limit).map
              (fun r => ApiCall.page r false)) := by
  have hpos : 0 < ("intitle:" ++ v.fmt ++ " | " ++ ("pageid:" ++ w.fmt)).length := by
    have h1 := intitle_append_length_pos v.fmt
    simp only [String.length_append] at h1 ⊢
    omega
  have hne := str_ne_empty_of_length_pos _ hpos
  simp [get_pages, intercalate_pair, hne]

/- ### Claims -/

/-- Claim C1: a SELECT whose WHERE clause contains a condition on a column other
than `title`/`pageid`, or a non-equality operator on those columns, fails
locally with a `ValueError` naming the offending column (or operator and
column), and no transport call (connect, search, page, random) is made. -/
theorem select_unsupported_condition_fails_locally (t : Transport)
    (conds : List Condition) (limit : Nat) (h : ∃ c ∈ conds, badCondition c) :
    (select t conds limit).2 = [] ∧
    ∃ c ∈ conds, badCondition c ∧
      (select t conds limit).1 = Except.error (errMsgFor c) := by
  obtain ⟨c, hc, hbd, heq⟩ := validateLoop_bad conds none none h
  have hv : validate_where_conditions conds = Except.error (errMsgFor c) := heq
  exact ⟨by simp [select, hv], c, hc, hbd, by simp [select, hv]⟩

/-- Witness for C1 at the condition `url = Y`. -/
theorem select_unsupported_condition_fails_locally_witness :
    (select T0 [⟨"=", "url", Value.str "Y"⟩] 5).2 = [] ∧
    ∃ c ∈ [(⟨"=", "url", Value.str "Y"⟩ : Condition)], badCondition c ∧
      (select T0 [⟨"=", "url", Value.str "Y"⟩] 5).1 = Except.error (errMsgFor c) :=
  select_unsupported_condition_fails_locally T0 _ 5
    ⟨⟨"=", "url", Value.str "Y"⟩, by simp, by decide⟩

/-- Claim C2: a SELECT whose only WHERE condition is `title = X` issues a
search call with term exactly `intitle:X` and `results` set to the limit;
when the transport returns at most that many results, at most `limit` rows
are produced. -/
theorem select_title_filter_search (t : Transport) (x : String) (limit : Nat)
    (h : (t.searchResults ("intitle:" ++ x) limit).length ≤ limit) :
    (select t [⟨"=", "title", Value.str x⟩] limit).2 =
      [ApiCall.connect, ApiCall.search ("intitle:" ++ x) limit]
        ++ (t.searchResults ("intitle:" ++ x) limit).map (fun r => ApiCall.page r false) ∧
    ∃ rows, (select t [⟨"=", "title", Value.str x⟩] limit).1 = Except.ok rows ∧
      rows.length ≤ limit := by
  have hv : validate_where_conditions [⟨"=", "title", Value.str x⟩] =
      Except.ok (some (Value.str x), none) := rfl
  have hg := get_pages_title_only t (Value.str x) limit
  refine ⟨by simp [select, hv, hg, Value.fmt], ?_⟩
  refine ⟨(t.searchResults ("intitle:" ++ x) limit).map
            (fun r => convert_page_to_dict (t.pageOf r)), ?_, ?_⟩
  · simp [select, hv, hg, Value.fmt]
  · simpa using h

/-- Witness for C2 at `title = X`, limit 5. -/
theorem select_title_filter_search_witness :
    (select T0 [⟨"=", "title", Value.str "X"⟩] 5).2 =
      [ApiCall.connect, ApiCall.search ("intitle:" ++ "X") 5]
        ++ (T0.searchResults ("intitle:" ++ "X") 5).map (fun r => ApiCall.page r false) ∧
    ∃ rows, (select T0 [⟨"=", "title", Value.str "X"⟩] 5).1 = Except.ok rows ∧
      rows.length ≤ 5 :=
  select_title_filter_search T0 "X" 5 (by decide)

/-- Claim C3: a SELECT with no WHERE conditions makes no search call; it calls
`random` with `pages` equal to the limit and produces one row per returned
page. -/
theorem select_no_filters_random (t : Transport) (limit : Nat) :
    select t [] limit =
      (Except.ok ((t.randomResults limit).map (fun r => convert_page_to_dict (t.pageOf r))),
       [ApiCall.connect, ApiCall.random limit]
         ++ (t.randomResults limit).map (fun r => ApiCall.page r false)) ∧
    searchTermsOf (select t [] limit).2 = [] ∧
    ∃ rows, (select t [] limit).1 = Except.ok rows ∧
      rows.length = (t.randomResults limit).length := by
  have hv : validate_where_conditions ([] : List Condition) = Except.ok (none, none) := rfl
  have hg := get_pages_no_filters t limit
  refine ⟨by simp [select, hv, hg], ?_, ?_⟩
  · simp [select, hv, hg, searchTermsOf, List.filterMap_append, List.filterMap_map,
      Function.comp]
  · refine ⟨(t.randomResults limit).map (fun r => convert_page_to_dict (t.pageOf r)),
      ?_, ?_⟩
    · simp [select, hv, hg]
    · simp

/-- Counterexample to C4 as stated: with `title = A` and `pageid = 1`, the
search term actually sent is `intitle:A | pageid:1` (fragments joined with
a pipe surrounded by spaces), which differs from the two fragments joined
with the bare string `|`. -/
theorem search_term_join_counterexample :
    searchTermsOf
        (select T0 [⟨"=", "title", Value.str "A"⟩, ⟨"=", "pageid", Value.int 1⟩] 5).2 =
      ["intitle:A | pageid:1"] ∧
    ("intitle:A | pageid:1" : String) ≠ "intitle:A" ++ "|" ++ "pageid:1" := by
  exact ⟨by decide, by decide⟩

/-- Claim C4 (amended): with both `title` and `pageid` equality filters, the
search term is the fragment `intitle:<title>` and the fragment
`pageid:<id>` joined with the separator `' | '` (a pipe surrounded by one
space on each side). -/
theorem search_term_title_and_pageid (t : Transport) (xv nv : Value) (limit : Nat) :
    searchTermsOf
        (select t [⟨"=", "title", xv⟩, ⟨"=", "pageid", nv⟩] limit).2 =
      ["intitle:" ++ xv.fmt ++ " | " ++ ("pageid:" ++ nv.fmt)] := by
  have hv : validate_where_conditions [⟨"=", "title", xv⟩, ⟨"=", "pageid", nv⟩] =
      Except.ok (some xv, some nv) := rfl
  have hg := get_pages_title_pageid t xv nv limit
  simp [select, hv, hg, searchTermsOf, List.filterMap_cons, List.filterMap_append,
    List.filterMap_map, Function.comp]

/-- Claim C5: converting a page that lacks one of the schema attributes does
not fail: the row is produced with that key absent, and every attribute the
page does have appears in the row with its value. -/
theorem convert_missing_attribute_skipped (page : Page) (a : String)
    (ha : a ∈ get_columns) (hmiss : page.attrs a = none) :
    (∀ v, (a, v) ∉ convert_page_to_dict page) ∧
    ∀ b v, b ∈ get_columns → page.attrs b = some v → (b, v) ∈ convert_page_to_dict page := by
  constructor
  · intro v hv
    rw [convert_page_to_dict_eq] at hv
    rcases List.mem_filterMap.mp hv with ⟨c, hcmem, hceq⟩
    cases hattr : page.attrs c with
    | none => rw [hattr] at hceq; cases hceq
    | some w =>
      rw [hattr] at hceq
      simp only [Option.map_some', Option.some.injEq] at hceq
      have hca : c = a := congrArg Prod.fst hceq
      rw [hca, hmiss] at hattr
      cases hattr
  · intro b v hb hv
    rw [convert_page_to_dict_eq]
    exact List.mem_filterMap.mpr ⟨b, hb, by rw [hv]; rfl⟩

/-- Witness for C5 at a page lacking exactly `categories`. -/
theorem convert_missing_attribute_skipped_witness :
    (∀ v, ("categories", v) ∉ convert_page_to_dict P0) ∧
    ∀ b v, b ∈ get_columns → P0.attrs b = some v → (b, v) ∈ convert_page_to_dict P0 :=
  convert_missing_attribute_skipped P0 "categories" (by decide) rfl

/-- Claim C6: an INSERT parsing to one or more rows with `title`, `content`
and `summary` set issues exactly one `edit` call whose payload carries the
first row's title as `title`, content as `text`, summary as `summary`, and
the two fixed headers; rows after the first are ignored. -/
theorem insert_first_row_single_edit (row : Row) (rest : List Row)
    (tv cv sv : Value)
    (ht : row.lookup "title" = some tv)
    (hc : row.lookup "content" = some cv)
    (hs : row.lookup "summary" = some sv) :
    insert (row :: rest) =
      (Except.ok (),
       [ApiCall.edit "edit"
         { title := tv, text := cv, summary := sv, headers := fixedHeaders }]) := by
  simp [insert, dictGet, ht, hc, hs]

/-- Witness for C6 at a two-row insert. -/
theorem insert_first_row_single_edit_witness :
    insert [[("title", Value.str "t"), ("content", Value.str "c"),
             ("summary", Value.str "s")],
            [("title", Value.str "u")]] =
      (Except.ok (),
       [ApiCall.edit "edit"
         { title := Value.str "t", text := Value.str "c", summary := Value.str "s",
           headers := fixedHeaders }]) :=
  insert_first_row_single_edit
    [("title", Value.str "t"), ("content", Value.str "c"), ("summary", Value.str "s")]
    [[("title", Value.str "u")]] _ _ _ rfl rfl rfl

/-- Claim C7: the default of `get_pages`'s `limit` parameter is 20, and with
the default the transport's search call carries `results = 20` (or the
random call carries `pages = 20` when no filters are given). -/
theorem get_pages_default_limit_twenty (t : Transport) (v : Value) :
    (get_pages t (some v) none).2 =
      [ApiCall.connect, ApiCall.search ("intitle:" ++ v.fmt) 20]
        ++ (t.searchResults ("intitle:" ++ v.fmt) 20).map (fun r => ApiCall.page r false) ∧
    (get_pages t none none).2 =
      [ApiCall.connect, ApiCall.random 20]
        ++ (t.randomResults 20).map (fun r => ApiCall.page r false) :=
  ⟨by rw [get_pages_title_only], by rw [get_pages_no_filters]⟩

/-- Claim C8: every key of a row produced by `convert_page_to_dict` is one of
the seven schema columns of `get_columns`. -/
theorem convert_row_keys_in_schema (page : Page) (kv : String × Value)
    (h : kv ∈ convert_page_to_dict page) : kv.1 ∈ get_columns := by
  rw [convert_page_to_dict_eq] at h
  rcases List.mem_filterMap.mp h with ⟨c, hcmem, hceq⟩
  cases hattr : page.attrs c with
  | none => rw [hattr] at hceq; cases hceq
  | some w =>
    rw [hattr] at hceq
    simp only [Option.map_some', Option.some.injEq] at hceq
    rw [← hceq]
    exact hcmem

/-- Witness for C8 at a concrete row entry of `P0`. -/
theorem convert_row_keys_in_schema_witness :
    (("title", Value.str "T") : String × Value).1 ∈ get_columns :=
  convert_row_keys_in_schema P0 ("title", Value.str "T") (by decide)

/-- Claim C9: multiple equality conditions on the same supported column are
not rejected; the value of the last condition in list order is the one
returned for each column, overwriting earlier ones. -/
theorem validate_duplicate_supported_conditions_last_wins (conds : List Condition)
    (h : ∀ c ∈ conds, c.op = "=" ∧ (c.column = "title" ∨ c.column = "pageid")) :
    validate_where_conditions conds =
      Except.ok (lastValue "title" conds, lastValue "pageid" conds) :=
  validateLoop_ok conds none none h

/-- Witness for C9 at `title = A, title = B`: the later value `B` wins. -/
theorem validate_duplicate_supported_conditions_last_wins_witness :
    validate_where_conditions
        [⟨"=", "title", Value.str "A"⟩, ⟨"=", "title", Value.str "B"⟩] =
      Except.ok (some (Value.str "B"), none) := by
  rw [validate_duplicate_supported_conditions_last_wins
      [⟨"=", "title", Value.str "A"⟩, ⟨"=", "title", Value.str "B"⟩] (by decide)]
  rfl

/-- Claim C10: an INSERT parsing to zero rows makes no edit call and succeeds;
an INSERT whose first row lacks `title`, `content` or `summary` raises a
`KeyError` naming a missing key before any edit call is made. -/
theorem insert_empty_or_missing_key (row : Row) (rest : List Row) :
    insert [] = (Except.ok (), []) ∧
    ((row.lookup "title" = none ∨ row.lookup "content" = none ∨
        row.lookup "summary" = none) →
      (insert (row :: rest)).2 = [] ∧
      ∃ k, k ∈ ["title", "content", "summary"] ∧ row.lookup k = none ∧
        (insert (row :: rest)).1 = Except.error ("KeyError: '" ++ k ++ "'")) := by
  refine ⟨rfl, ?_⟩
  intro hmiss
  cases ht : row.lookup "title" with
  | none =>
    exact ⟨by simp [insert, dictGet, ht],
           "title", by simp, ht, by simp [insert, dictGet, ht]⟩
  | some tv =>
    cases hc : row.lookup "content" with
    | none =>
      exact ⟨by simp [insert, dictGet, ht, hc],
             "content", by simp, hc, by simp [insert, dictGet, ht, hc]⟩
    | some cv =>
      cases hs : row.lookup "summary" with
      | none =>
        exact ⟨by simp [insert, dictGet, ht, hc, hs],
               "summary", by simp, hs, by simp [insert, dictGet, ht, hc, hs]⟩
      | some sv =>
        rcases hmiss with hm | hm | hm
        · rw [ht] at hm; cases hm
        · rw [hc] at hm; cases hm
        · rw [hs] at hm; cases hm

/-- Witness for C10: the empty insert, and a first row lacking `title`. -/
theorem insert_empty_or_missing_key_witness :
    insert [] = (Except.ok (), []) ∧
    (insert [[("content", Value.str "c")]]).2 = [] ∧
    ∃ k, k ∈ ["title", "content", "summary"] ∧
      ([("content", Value.str "c")] : Row).lookup k = none ∧
      (insert [[("content", Value.str "c")]]).1 =
        Except.error ("KeyError: '" ++ k ++ "'") := by
  obtain ⟨h1, h2⟩ := insert_empty_or_missing_key [("content", Value.str "c")] []
  exact ⟨h1, h2 (Or.inl rfl)⟩

end MediaWiki
